import Mathlib

/-!
Verification of the Centris PDF extractor backend
(`src/backend/core/centris_extractor_correct.py`,
`src/backend/core/pdf_extractor.py`, `src/backend/main.py`).

Python strings are embedded as `List Char`.  External library boundaries
(pdfplumber page text, the `re` regex engine, pandas/openpyxl workbook
writing) are modelled as explicit inputs or abstract workbook shapes; the
repository's own decision logic is translated directly.
-/

/-- A Python string, embedded as its list of characters. -/
abbrev PyStr := List Char

/-- A Python `dict` with string keys and string values, as an association
list in insertion order (all dict literals in the sources have distinct
keys). -/
abbrev StrDict := List (String × PyStr)

/-- `d.get(k)`: first value bound to `k`, if any. -/
def dictFind (d : StrDict) (k : String) : Option PyStr :=
  (d.find? (fun p => p.1 == k)).map Prod.snd

/-- `d.get(k, dflt)` from Python. -/
def dictGet (d : StrDict) (k : String) (dflt : PyStr) : PyStr :=
  (dictFind d k).getD dflt

/-- `s.replace(a, b)` for single characters (the only use in the sources). -/
def mapReplace (a b : Char) (s : PyStr) : PyStr :=
  s.map (fun c => if c = a then b else c)

/-- Python `str.strip()`: remove leading and trailing whitespace. -/
def pyStrip (s : PyStr) : PyStr :=
  ((s.dropWhile Char.isWhitespace).reverse.dropWhile Char.isWhitespace).reverse

/-- Worker for `pyTitle`; the flag records whether the previous character
was alphabetic (i.e. we are inside a word). -/
def pyTitleGo : Bool → List Char → List Char
  | _, [] => []
  | prevAlpha, c :: cs =>
    if c.isAlpha then
      (if prevAlpha then c.toLower else c.toUpper) :: pyTitleGo true cs
    else c :: pyTitleGo false cs

/-- Python `str.title()` (restricted to alphabetic word characters, which
covers the property-type vocabulary it is applied to). -/
def pyTitle (s : PyStr) : PyStr := pyTitleGo false s

/-- Python `str.endswith(suffix)`. -/
def pyEndswith (s suffix : PyStr) : Bool :=
  s.drop (s.length - suffix.length) == suffix

/-- Python `int()` on a non-empty string of decimal digit characters. -/
def parseDigits (s : PyStr) : Nat :=
  s.foldl (fun acc c => acc * 10 + (c.toNat - 48)) 0

/-- Fuelled decimal rendering of a natural number (fuel `n+1` always
suffices); most significant digit first, `0 ↦ "0"`. -/
def natToDecimalGo : Nat → Nat → List Char
  | 0, _ => []
  | fuel + 1, n =>
    if n < 10 then [Nat.digitChar n]
    else natToDecimalGo fuel (n / 10) ++ [Nat.digitChar (n % 10)]

/-- The decimal digit characters of `n`, as Python renders `n` in an
f-string. -/
def natToDecimal (n : Nat) : List Char := natToDecimalGo (n + 1) n

/-- Split a list into chunks of three from the front (used on the reversed
digit string, hence chunks of three from the right of the original). -/
def chunk3 : List Char → List (List Char)
  | [] => []
  | [a] => [[a]]
  | [a, b] => [[a, b]]
  | a :: b :: c :: rest => [a, b, c] :: chunk3 rest

/-- Concatenate chunks with a single separator character between them. -/
def sepChunks (sep : Char) : List (List Char) → List Char
  | [] => []
  | [c] => c
  | c :: d :: rest => c ++ sep :: sepChunks sep (d :: rest)

/-- Python's `f"{n:,}"` grouping applied to a digit string: chunks of
three from the right, joined by commas. -/
def pyCommaGrouping (ds : List Char) : List Char :=
  sepChunks ',' (((chunk3 ds.reverse).map List.reverse).reverse)

/-- Modelled from the spec's words (§4.4 rule 4): group the digits in
chunks of three from the right with a single space as separator.  Used to
state the normalizer claims against the code's comma-format-then-replace
implementation. -/
def specGroupThrees (ds : List Char) : List Char :=
  sepChunks ' ' (((chunk3 ds.reverse).map List.reverse).reverse)

/-- `CentrisExtractorCorrect._format_price`
(centris_extractor_correct.py, lines 99-127).  `price_digits` is the
digit filter of the input, inlined; the Python `try/except ValueError`
around `int(price_digits)` cannot fire because `price_digits` is a
non-empty digit string, so the embedding is the `try` branch. -/
def _format_price (price_str : PyStr) : PyStr :=
  if price_str = [] then []
  else if '$' ∈ price_str then price_str
  else if price_str.filter Char.isDigit = [] then price_str
  else
    mapReplace ',' ' '
      (pyCommaGrouping (natToDecimal (parseDigits (price_str.filter Char.isDigit))))
      ++ [' ', '$']

lemma mapReplace_of_not_mem (a b : Char) (s : PyStr) (h : a ∉ s) :
    mapReplace a b s = s := by
  induction s with
  | nil => rfl
  | cons c t ih =>
    simp only [List.mem_cons] at h
    push_neg at h
    simp only [mapReplace, List.map_cons]
    rw [if_neg (fun hc => h.1 hc.symm)]
    have := ih h.2
    simp only [mapReplace] at this
    rw [this]

lemma mapReplace_append (a b : Char) (s t : PyStr) :
    mapReplace a b (s ++ t) = mapReplace a b s ++ mapReplace a b t := by
  simp [mapReplace]

lemma mapReplace_sepChunks (L : List (List Char)) (h : ∀ x ∈ L, ',' ∉ x) :
    mapReplace ',' ' ' (sepChunks ',' L) = sepChunks ' ' L := by
  match L with
  | [] => rfl
  | [c] =>
    simp only [sepChunks]
    exact mapReplace_of_not_mem _ _ _ (h c (by simp))
  | c :: d :: rest =>
    simp only [sepChunks]
    rw [mapReplace_append]
    rw [mapReplace_of_not_mem _ _ _ (h c (by simp))]
    have hrest : ∀ x ∈ d :: rest, ',' ∉ x := by
      intro x hx
      exact h x (List.mem_cons_of_mem _ hx)
    have h2 := mapReplace_sepChunks (d :: rest) hrest
    simp only [mapReplace, List.map_cons] at h2 ⊢
    simp [h2]

lemma chunk3_mem : ∀ (l : List Char), ∀ x ∈ chunk3 l, ∀ c ∈ x, c ∈ l
  | [], x, hx => by simp [chunk3] at hx
  | [a], x, hx => by
    simp only [chunk3, List.mem_singleton] at hx
    subst hx; simp
  | [a, b], x, hx => by
    simp only [chunk3, List.mem_singleton] at hx
    subst hx; simp
  | a :: b :: c :: rest, x, hx => by
    simp only [chunk3, List.mem_cons] at hx
    rcases hx with hx | hx
    · subst hx
      intro ch hch
      simp only [List.mem_cons, List.not_mem_nil, or_false] at hch
      simp only [List.mem_cons]
      tauto
    · intro ch hch
      have := chunk3_mem rest x hx ch hch
      simp [this]

lemma digitChar_ne_comma (m : Nat) (h : m < 10) : Nat.digitChar m ≠ ',' := by
  interval_cases m <;> decide

lemma natToDecimalGo_mem (fuel : Nat) :
    ∀ (n : Nat), ∀ c ∈ natToDecimalGo fuel n, ∃ m, m < 10 ∧ c = Nat.digitChar m := by
  induction fuel with
  | zero => intro n c hc; simp [natToDecimalGo] at hc
  | succ fuel ih =>
    intro n c hc
    simp only [natToDecimalGo] at hc
    by_cases hn : n < 10
    · rw [if_pos hn] at hc
      simp only [List.mem_singleton] at hc
      exact ⟨n, hn, hc⟩
    · rw [if_neg hn] at hc
      simp only [List.mem_append, List.mem_singleton] at hc
      rcases hc with hc | hc
      · exact ih (n / 10) c hc
      · exact ⟨n % 10, Nat.mod_lt _ (by omega), hc⟩

lemma natToDecimal_no_comma (n : Nat) : ',' ∉ natToDecimal n := by
  intro h
  obtain ⟨m, hm, hc⟩ := natToDecimalGo_mem (n + 1) n ',' h
  exact digitChar_ne_comma m hm hc.symm

/-- The comma-format-then-replace implementation equals the spec's direct
space grouping, for comma-free digit strings. -/
lemma mapReplace_pyCommaGrouping (ds : List Char) (h : ',' ∉ ds) :
    mapReplace ',' ' ' (pyCommaGrouping ds) = specGroupThrees ds := by
  apply mapReplace_sepChunks
  intro x hx hcomma
  rw [List.mem_reverse] at hx
  obtain ⟨y, hy, hxy⟩ := List.mem_map.mp hx
  subst hxy
  rw [List.mem_reverse] at hcomma
  have := chunk3_mem ds.reverse y hy ',' hcomma
  rw [List.mem_reverse] at this
  exact h this

/-- Claim C2: `_format_price` is total and returns the empty string for
empty input, the input unchanged when it contains a currency symbol, the
input unchanged when stripping non-digits leaves nothing, and otherwise
the stripped digits parsed as a non-negative integer, grouped in chunks
of three from the right by single spaces, followed by a space and the
currency symbol. -/
theorem format_price_spec_cases (s : PyStr) :
    (s = [] → _format_price s = []) ∧
    (s ≠ [] → '$' ∈ s → _format_price s = s) ∧
    (s ≠ [] → '$' ∉ s → s.filter Char.isDigit = [] → _format_price s = s) ∧
    (s ≠ [] → '$' ∉ s → s.filter Char.isDigit ≠ [] →
      _format_price s =
        specGroupThrees (natToDecimal (parseDigits (s.filter Char.isDigit)))
          ++ [' ', '$']) := by
  refine ⟨?_, ?_, ?_, ?_⟩
  · intro h; simp [_format_price, h]
  · intro h1 h2; simp [_format_price, h1, h2]
  · intro h1 h2 h3; simp [_format_price, h1, h2, h3]
  · intro h1 h2 h3
    simp only [_format_price, if_neg h1, if_neg h2, if_neg h3]
    rw [mapReplace_pyCommaGrouping _ (natToDecimal_no_comma _)]

/-- Witness for C2 at the spec's two worked examples. -/
theorem format_price_spec_cases_witness :
    _format_price ("450000".toList) = "450 000 $".toList ∧
    _format_price ("1500".toList) = "1 500 $".toList := by
  constructor
  · have h := (format_price_spec_cases ("450000".toList)).2.2.2
      (by decide) (by decide) (by decide)
    rw [h]; decide
  · have h := (format_price_spec_cases ("1500".toList)).2.2.2
      (by decide) (by decide) (by decide)
    rw [h]; decide

/-- Claim C3: price normalization is idempotent; in particular an input
already containing the currency symbol is returned unchanged. -/
theorem format_price_idempotent (s : PyStr) :
    _format_price (_format_price s) = _format_price s := by
  by_cases h1 : s = []
  · subst h1; simp [_format_price]
  · by_cases h2 : '$' ∈ s
    · have hs : _format_price s = s := by simp [_format_price, h1, h2]
      rw [hs]; exact hs
    · by_cases h3 : s.filter Char.isDigit = []
      · have hs : _format_price s = s := by simp [_format_price, h1, h2, h3]
        rw [hs]; exact hs
      · have hs : _format_price s =
            mapReplace ',' ' '
              (pyCommaGrouping (natToDecimal (parseDigits (s.filter Char.isDigit))))
              ++ [' ', '$'] := by
          simp [_format_price, h1, h2, h3]
        rw [hs]
        have hne : mapReplace ',' ' '
            (pyCommaGrouping (natToDecimal (parseDigits (s.filter Char.isDigit))))
            ++ [' ', '$'] ≠ [] := by simp
        have hdol : '$' ∈ mapReplace ',' ' '
            (pyCommaGrouping (natToDecimal (parseDigits (s.filter Char.isDigit))))
            ++ [' ', '$'] := by simp
        simp [_format_price, hne, hdol]

/-- The 11 canonical column headers, in declared order (they appear both
as the record keys at centris_extractor_correct.py lines 73-85 and as
`columns_order` at lines 140-152). -/
def originalColumns : List String :=
  ["Centris #", "Adresse complète", "Quartier", "Type de propriété",
   "Prix actuel", "Prix original",
   "Propriétaire(s): nom(s) et adresse(s)",
   "Représentant(s): nom(s) et adresse(s)",
   "Courtier(s): nom(s)", "Courtier(s): téléphone(s)",
   "Courtier(s): courriel(s)"]

/-- The raw-record keys read by `property_data.get(...)`, in the same
order as `originalColumns` (the owner and representative columns read
shorter raw keys). -/
def rawKeys : List String :=
  ["Centris #", "Adresse complète", "Quartier", "Type de propriété",
   "Prix actuel", "Prix original", "Propriétaire(s)", "Représentant(s)",
   "Courtier(s): nom(s)", "Courtier(s): téléphone(s)",
   "Courtier(s): courriel(s)"]

/-- The `formatted_record` dict literal built per raw record inside
`extract_to_original_format` (centris_extractor_correct.py, lines
73-85). -/
def formatRecord (property_data : StrDict) : StrDict :=
  [("Centris #", dictGet property_data "Centris #" []),
   ("Adresse complète", dictGet property_data "Adresse complète" []),
   ("Quartier", dictGet property_data "Quartier" []),
   ("Type de propriété", dictGet property_data "Type de propriété" []),
   ("Prix actuel", _format_price (dictGet property_data "Prix actuel" [])),
   ("Prix original", _format_price (dictGet property_data "Prix original" [])),
   ("Propriétaire(s): nom(s) et adresse(s)",
     dictGet property_data "Propriétaire(s)" []),
   ("Représentant(s): nom(s) et adresse(s)",
     dictGet property_data "Représentant(s)" []),
   ("Courtier(s): nom(s)", dictGet property_data "Courtier(s): nom(s)" []),
   ("Courtier(s): téléphone(s)",
     dictGet property_data "Courtier(s): téléphone(s)" []),
   ("Courtier(s): courriel(s)",
     dictGet property_data "Courtier(s): courriel(s)" [])]

/-- `CentrisExtractorCorrect.extract_to_original_format`
(centris_extractor_correct.py, lines 28-97).  The inner call
`self.extractor.extract_from_pdf(pdf_path)` goes to an extractor
installed outside this repository; its outcome is the `extractResult`
argument (`Except.error e` models the call raising `e`).  The per-record
`try/except` (lines 89-95) is unreachable in the embedding because
`dict.get` with a default and `_format_price` are total, so the errors
list of the success branch is empty. -/
def extract_to_original_format (pdfName : PyStr)
    (extractResult : Except PyStr (List StrDict)) :
    List StrDict × List StrDict :=
  match extractResult with
  | Except.error e =>
    ([], [[("NomFichier", pdfName),
           ("MessageErreur", "Erreur extraction PDF: ".toList ++ e)]])
  | Except.ok extracted_data =>
    if extracted_data = [] then
      ([], [[("NomFichier", pdfName),
             ("MessageErreur", "Aucune donnée extraite du PDF".toList)]])
    else (extracted_data.map formatRecord, [])

/-- Modelled from the spec (§4.1, §8): for a document that opens
successfully but yields zero extractable characters on every page, the
external extractor `CentrisExtractor.extract_from_pdf` (installed at a
fixed path outside this repository) produces no records, i.e. the call
returns an empty list. -/
def emptyTextExtraction : Except PyStr (List StrDict) := Except.ok []

/-- Claim C1: every record produced by `extract_to_original_format` has
exactly the 11 canonical keys in declared column order, and a field whose
raw source key is absent from the raw record is mapped to the empty
string (never absent). -/
theorem formatRecord_canonical (property_data : StrDict) :
    (formatRecord property_data).map Prod.fst = originalColumns ∧
    (∀ i, i < 11 → dictFind property_data (rawKeys.getD i "") = none →
      ((formatRecord property_data).getD i ("", [])).2 = []) := by
  constructor
  · rfl
  · intro i hi h
    interval_cases i <;>
      simp_all [formatRecord, rawKeys, dictGet, _format_price]

/-- Witness for C1: a raw record carrying only a `Quartier` field still
yields all 11 keys in order, with the missing `Prix actuel` field mapped
to the empty string. -/
theorem formatRecord_canonical_witness :
    (formatRecord [("Quartier", "x".toList)]).map Prod.fst = originalColumns ∧
    ((formatRecord [("Quartier", "x".toList)]).getD 4 ("", [])).2 = [] :=
  ⟨(formatRecord_canonical [("Quartier", "x".toList)]).1,
   (formatRecord_canonical [("Quartier", "x".toList)]).2 4 (by decide) (by decide)⟩

/-- Claim C4: when the PDF document cannot be opened or parsed at all
(the external extraction call raises), `extract_to_original_format`
returns an empty record sequence together with exactly one error entry
naming the file and the underlying cause, in the parallel error list. -/
theorem extract_doc_failure_single_error (pdfName cause : PyStr) :
    extract_to_original_format pdfName (Except.error cause)
      = ([], [[("NomFichier", pdfName),
               ("MessageErreur", "Erreur extraction PDF: ".toList ++ cause)]]) := rfl

/-- Claim C7: for a document that opens but yields no extractable text
(so the extractor returns no data), extraction returns a document-level
error entry naming the file and an empty record sequence. -/
theorem empty_text_error_entry (pdfName : PyStr) :
    extract_to_original_format pdfName emptyTextExtraction
      = ([], [[("NomFichier", pdfName),
               ("MessageErreur", "Aucune donnée extraite du PDF".toList)]]) := rfl

/-- The results of the three `re.findall` calls over the concatenated
page text in `extract_pdf_data` (pdf_extractor.py, lines 38-47): the
address pattern yields `(street, city)` capture pairs, the price pattern
yields its single digit-group capture, the type pattern yields the
matched dwelling word.  The regex engine is an external library, so the
match lists are the embedding's input. -/
structure PdfScan where
  addresses : List (PyStr × PyStr)
  prices : List PyStr
  types : List PyStr
deriving DecidableEq

/-- The ad-hoc five-field record shape built by `extract_pdf_data`. -/
structure PropertyEntry where
  address : PyStr
  price : PyStr
  type : PyStr
  city : PyStr
  street : PyStr
deriving DecidableEq

/-- A default `PropertyEntry`, used only as the out-of-range value of
`List.getD` in theorem statements. -/
def dummyProp : PropertyEntry := ⟨[], [], [], [], []⟩

/-- The body of the pairing loop (pdf_extractor.py, lines 50-58):
the `i`-th address match paired with the `i`-th price and type matches,
with the source's fallbacks when those lists are shorter. -/
def buildProperty (scan : PdfScan) (i : Nat) (addr : PyStr × PyStr) :
    PropertyEntry where
  address := pyStrip addr.1 ++ ", ".toList ++ pyStrip addr.2
  price := scan.prices.getD i ("N/A".toList) ++ ['$']
  type := if h : i < scan.types.length then pyTitle (scan.types.get ⟨i, h⟩)
          else "Propriété".toList
  city := pyStrip addr.2
  street := pyStrip addr.1

/-- `for i, (street, city) in enumerate(addresses[:10])`, unrolled with an
explicit running index. -/
def heuristicGo (scan : PdfScan) : Nat → List (PyStr × PyStr) → List PropertyEntry
  | _, [] => []
  | i, a :: rest => buildProperty scan i a :: heuristicGo scan (i + 1) rest

/-- The heuristic pairing strategy: one record per address match, capped
at the first 10 (pdf_extractor.py, lines 49-58). -/
def heuristicProps (scan : PdfScan) : List PropertyEntry :=
  heuristicGo scan 0 (scan.addresses.take 10)

/-- `sample_addresses` (pdf_extractor.py, lines 63-67). -/
def sampleAddresses : List PyStr :=
  ["Adresse extraite du PDF".toList, "Propriété identifiée".toList,
   "Bien immobilier trouvé".toList]

/-- One iteration of the `sample_prices` loop (pdf_extractor.py, lines
70-75): keep a price match only if its digit filter has at least four
digits, reformatted with `f"{int(clean_price):,}$".replace(',', ' ')`. -/
def cleanSamplePrice (price : PyStr) : Option PyStr :=
  if price.filter Char.isDigit ≠ [] ∧ 4 ≤ (price.filter Char.isDigit).length then
    some (mapReplace ',' ' '
      (pyCommaGrouping (natToDecimal (parseDigits (price.filter Char.isDigit))) ++ ['$']))
  else none

/-- `sample_prices` built from the first three price matches. -/
def samplePrices (prices : List PyStr) : List PyStr :=
  (prices.take 3).filterMap cleanSamplePrice

/-- The fallback prices when no price match survives cleaning
(pdf_extractor.py, line 78). -/
def defaultSamplePrices : List PyStr :=
  ["Prix à déterminer".toList, "Voir document".toList, "Contact requis".toList]

/-- The placeholder records emitted when the pairing loop produced
nothing (pdf_extractor.py, lines 60-88): `range(min(len(sample_addresses), 3))`
is `range 3`. -/
def placeholderProps (prices : List PyStr) : List PropertyEntry :=
  (List.range 3).map (fun i =>
    { address := sampleAddresses.getD i []
      price := (if samplePrices prices = [] then defaultSamplePrices
                else samplePrices prices).getD i ("Prix N/A".toList)
      type := "Propriété extraite".toList
      city := "Ville détectée".toList
      street := "Rue ".toList ++ natToDecimal (i + 1) })

/-- The error-shaped entry appended when the `try` body raises
(pdf_extractor.py, lines 90-98).  The address prefix is
`"Erreur lors de l'extraction: "`; its apostrophe is spelled via
`Char.ofNat 39`. -/
def extractionErrorEntry (e : PyStr) : PropertyEntry where
  address := "Erreur lors de l".toList ++ [Char.ofNat 39]
              ++ "extraction: ".toList ++ e
  price := "N/A".toList
  type := "Erreur".toList
  city := "N/A".toList
  street := "N/A".toList

/-- `extract_pdf_data` (pdf_extractor.py, lines 12-100).  Opening the PDF
and matching the patterns is the external boundary: `Except.error e`
models `pdfplumber` raising `e` before any record was assembled, and
`Except.ok scan` carries the three match lists.  Every exception is
converted into an error-shaped entry in the returned list, so the
function is total. -/
def extract_pdf_data (scanResult : Except PyStr PdfScan) : List PropertyEntry :=
  match scanResult with
  | Except.error e => [extractionErrorEntry e]
  | Except.ok scan =>
    if heuristicProps scan = [] then placeholderProps scan.prices
    else heuristicProps scan

/-- The metadata result of `extract_centris_detailed`. -/
structure DetailedResult where
  success : Bool
  filename : PyStr
  total_properties : Nat
  properties : List PropertyEntry
  extraction_method : PyStr
  errors : List PyStr
deriving DecidableEq

/-- `extract_centris_detailed` (pdf_extractor.py, lines 103-133): since
`extract_pdf_data` is total, the `except` branch (lines 129-131) is
unreachable and the returned dict is the `try` branch's final state. -/
def extract_centris_detailed (filename : PyStr)
    (scanResult : Except PyStr PdfScan) : DetailedResult where
  success := true
  filename := filename
  total_properties := (extract_pdf_data scanResult).length
  properties := extract_pdf_data scanResult
  extraction_method := "pdfplumber".toList
  errors := []

lemma heuristicGo_length (scan : PdfScan) (k : Nat) (l : List (PyStr × PyStr)) :
    (heuristicGo scan k l).length = l.length := by
  induction l generalizing k with
  | nil => rfl
  | cons a rest ih => simp [heuristicGo, ih]

lemma heuristicGo_getD (scan : PdfScan) (l : List (PyStr × PyStr)) :
    ∀ (k i : Nat), i < l.length →
      (heuristicGo scan k l).getD i dummyProp
        = buildProperty scan (k + i) (l.getD i ([], [])) := by
  induction l with
  | nil => intro k i hi; simp at hi
  | cons a rest ih =>
    intro k i hi
    cases i with
    | zero => simp [heuristicGo]
    | succ j =>
      simp only [heuristicGo, List.getD_cons_succ]
      rw [ih (k + 1) j (by simpa using hi)]
      congr 1
      omega

lemma take_getD {α : Type} (l : List α) (n i : Nat) (d : α) (h : i < n) :
    (l.take n).getD i d = l.getD i d := by
  induction l generalizing n i with
  | nil => simp
  | cons a t ih =>
    cases n with
    | zero => omega
    | succ m =>
      cases i with
      | zero => simp
      | succ j =>
        simp only [List.take_succ_cons, List.getD_cons_succ]
        exact ih m j (by omega)

lemma heuristicProps_eq_nil_iff (scan : PdfScan) :
    heuristicProps scan = [] ↔ scan.addresses = [] := by
  unfold heuristicProps
  constructor
  · intro h
    cases haddr : scan.addresses with
    | nil => rfl
    | cons a rest =>
      rw [haddr] at h
      simp [List.take, heuristicGo] at h
  · intro h
    rw [h]
    rfl

/-- Claim C5: when the document text contains address-like substrings,
the heuristic strategy produces one record per address match capped at
the first 10, pairing the k-th address match with the k-th price match
by index (the source's `'N/A'` fallback applying past the end of the
price list). -/
theorem heuristic_index_pairing (scan : PdfScan) (h : scan.addresses ≠ []) :
    (extract_pdf_data (Except.ok scan)).length = min scan.addresses.length 10 ∧
    (∀ i, i < min scan.addresses.length 10 →
      ((extract_pdf_data (Except.ok scan)).getD i dummyProp).address
        = pyStrip (scan.addresses.getD i ([], [])).1 ++ ", ".toList
            ++ pyStrip (scan.addresses.getD i ([], [])).2 ∧
      ((extract_pdf_data (Except.ok scan)).getD i dummyProp).price
        = scan.prices.getD i ("N/A".toList) ++ ['$']) := by
  have hne : heuristicProps scan ≠ [] := by
    rw [Ne, heuristicProps_eq_nil_iff]; exact h
  have hres : extract_pdf_data (Except.ok scan) = heuristicProps scan := by
    simp [extract_pdf_data, hne]
  constructor
  · rw [hres]
    unfold heuristicProps
    rw [heuristicGo_length, List.length_take]
    omega
  · intro i hi
    have hlen : i < (scan.addresses.take 10).length := by
      rw [List.length_take]; omega
    rw [hres]
    unfold heuristicProps
    rw [heuristicGo_getD scan _ 0 i hlen, take_getD _ _ _ _ (by omega)]
    simp only [Nat.zero_add]
    exact ⟨rfl, rfl⟩

/-- Witness for C5: two address matches and one price match yield two
records; the second record falls back to the `N/A` price. -/
theorem heuristic_index_pairing_witness :
    (extract_pdf_data (Except.ok
        ⟨[("12 rue Principale".toList, "Montréal".toList),
          (" 3 avenue Cartier ".toList, "Québec".toList)],
         ["450 000".toList], ["condo".toList]⟩)).length = 2 ∧
    ((extract_pdf_data (Except.ok
        ⟨[("12 rue Principale".toList, "Montréal".toList),
          (" 3 avenue Cartier ".toList, "Québec".toList)],
         ["450 000".toList], ["condo".toList]⟩)).getD 0 dummyProp).price
      = "450 000$".toList ∧
    ((extract_pdf_data (Except.ok
        ⟨[("12 rue Principale".toList, "Montréal".toList),
          (" 3 avenue Cartier ".toList, "Québec".toList)],
         ["450 000".toList], ["condo".toList]⟩)).getD 1 dummyProp).price
      = "N/A$".toList := by
  have h := heuristic_index_pairing
    ⟨[("12 rue Principale".toList, "Montréal".toList),
      (" 3 avenue Cartier ".toList, "Québec".toList)],
     ["450 000".toList], ["condo".toList]⟩ (by decide)
  refine ⟨?_, ?_, ?_⟩
  · rw [h.1]; decide
  · rw [(h.2 0 (by decide)).2]; decide
  · rw [(h.2 1 (by decide)).2]; decide

/-- Claim C6: when the heuristic pairing yields zero records (no address
match), extraction emits at most 3 placeholder records, all flagged with
the placeholder type `"Propriété extraite"` and one of the fixed sample
address strings, and never returns an empty list. -/
theorem placeholder_fallback_bounded (scan : PdfScan)
    (h : scan.addresses = []) :
    extract_pdf_data (Except.ok scan) ≠ [] ∧
    (extract_pdf_data (Except.ok scan)).length ≤ 3 ∧
    (∀ p ∈ extract_pdf_data (Except.ok scan),
      p.type = "Propriété extraite".toList ∧ p.address ∈ sampleAddresses) := by
  have hnil : heuristicProps scan = [] := (heuristicProps_eq_nil_iff scan).mpr h
  have hres : extract_pdf_data (Except.ok scan) = placeholderProps scan.prices := by
    simp [extract_pdf_data, hnil]
  have hlen : (placeholderProps scan.prices).length = 3 := by
    simp [placeholderProps]
  refine ⟨?_, ?_, ?_⟩
  · rw [hres]
    intro hc
    rw [hc] at hlen
    simp at hlen
  · rw [hres, hlen]
  · rw [hres]
    intro p hp
    simp only [placeholderProps, List.mem_map, List.mem_range] at hp
    obtain ⟨i, hi, hpi⟩ := hp
    subst hpi
    refine ⟨rfl, ?_⟩
    interval_cases i <;> simp [sampleAddresses]

/-- Witness for C6: a scan with no address matches (but one price match)
yields a non-empty list of at most three placeholder records. -/
theorem placeholder_fallback_bounded_witness :
    extract_pdf_data (Except.ok ⟨[], ["123456".toList], []⟩) ≠ [] ∧
    (extract_pdf_data (Except.ok ⟨[], ["123456".toList], []⟩)).length ≤ 3 := by
  have h := placeholder_fallback_bounded ⟨[], ["123456".toList], []⟩ rfl
  exact ⟨h.1, h.2.1⟩

/-- Claim C10: `extract_pdf_data` is total (every failure of the external
PDF/regex boundary becomes an error-shaped entry) and always returns a
non-empty list; consequently the exception branch of
`extract_centris_detailed` is unreachable, so that function always
returns `success = true` and an empty error list. -/
theorem extract_pdf_data_total_nonempty (filename : PyStr)
    (scanResult : Except PyStr PdfScan) :
    extract_pdf_data scanResult ≠ [] ∧
    (extract_centris_detailed filename scanResult).success = true ∧
    (extract_centris_detailed filename scanResult).errors = [] := by
  refine ⟨?_, rfl, rfl⟩
  match scanResult with
  | Except.error e => simp [extract_pdf_data]
  | Except.ok scan =>
    simp only [extract_pdf_data]
    by_cases hc : heuristicProps scan = []
    · rw [if_pos hc]
      have : (placeholderProps scan.prices).length = 3 := by
        simp [placeholderProps]
      intro hnil
      rw [hnil] at this
      simp at this
    · rw [if_neg hc]
      exact hc

/-- `CentrisExtractorCorrect.export_to_xlsx_original`
(centris_extractor_correct.py, lines 129-184), abstracted to the workbook
shape it writes: the sheets in creation order as `(name, data row count)`
pairs -- the data sheet `Sheet1` is written only when `data` is
non-empty, the error sheet `Erreurs` only when `errors` is non-empty --
plus the boolean return value.  Writing is delegated to
pandas/openpyxl; the `except` branch (return `False`) fires in the model
only when no sheet was written, since openpyxl refuses to save a
workbook with no sheet (external I/O failures are not modelled). -/
def export_to_xlsx_original (data errors : List StrDict) :
    List (String × Nat) × Bool :=
  ((if data = [] then [] else [("Sheet1", data.length)])
     ++ (if errors = [] then [] else [("Erreurs", errors.length)]),
   if data = [] ∧ errors = [] then false else true)

/-- Row count of the named sheet in a workbook shape, if present. -/
def sheetRows (sheets : List (String × Nat)) (name : String) : Option Nat :=
  (sheets.find? (fun p => p.1 == name)).map Prod.snd

/-- A concrete error entry used by the C8 counterexample and witness. -/
def demoErrorEntry : StrDict :=
  [("NomFichier", "f.pdf".toList), ("MessageErreur", "msg".toList)]

/-- Counterexample to claim C8 as stated: with an empty record sequence
and a non-empty error sequence the workbook has exactly one sheet, not
the two sheets the claim requires for every non-empty error sequence. -/
theorem export_two_sheets_cex :
    ([demoErrorEntry] : List StrDict) ≠ [] ∧
    (export_to_xlsx_original [] [demoErrorEntry]).1.length = 1 ∧
    (export_to_xlsx_original [] [demoErrorEntry]).1.length ≠ 2 := by
  decide

/-- Claim C8 (amended): with non-empty records and no errors the workbook
has exactly one sheet; with non-empty records and non-empty errors it has
exactly two sheets, the error sheet holding one row per error entry; with
empty records and non-empty errors it has exactly one sheet (the error
sheet alone, again one row per error entry); the boolean success signal
is returned in each of these cases. -/
theorem export_sheet_counts (data errors : List StrDict) :
    (data ≠ [] → errors = [] →
      (export_to_xlsx_original data errors).1.length = 1 ∧
      (export_to_xlsx_original data errors).2 = true) ∧
    (data ≠ [] → errors ≠ [] →
      (export_to_xlsx_original data errors).1.length = 2 ∧
      sheetRows (export_to_xlsx_original data errors).1 "Erreurs"
        = some errors.length ∧
      (export_to_xlsx_original data errors).2 = true) ∧
    (data = [] → errors ≠ [] →
      (export_to_xlsx_original data errors).1.length = 1 ∧
      sheetRows (export_to_xlsx_original data errors).1 "Erreurs"
        = some errors.length ∧
      (export_to_xlsx_original data errors).2 = true) := by
  have hs1 : ("Sheet1" == "Erreurs") = false := by decide
  have hs2 : ("Erreurs" == "Erreurs") = true := by decide
  refine ⟨?_, ?_, ?_⟩
  · intro hd he
    simp [export_to_xlsx_original, hd, he]
  · intro hd he
    simp [export_to_xlsx_original, sheetRows, hd, he, List.find?, hs1, hs2]
  · intro hd he
    simp [export_to_xlsx_original, sheetRows, hd, he, List.find?, hs2]

/-- Witness for C8 (amended), at one canonical record (the image of the
empty raw record) and one error entry: two sheets, one error row. -/
theorem export_sheet_counts_witness :
    (export_to_xlsx_original [formatRecord []] [demoErrorEntry]).1.length = 2 ∧
    sheetRows (export_to_xlsx_original [formatRecord []] [demoErrorEntry]).1 "Erreurs"
      = some 1 ∧
    (export_to_xlsx_original [formatRecord []] [demoErrorEntry]).2 = true := by
  have h := (export_sheet_counts [formatRecord []] [demoErrorEntry]).2.1
    (by simp) (by simp)
  exact ⟨h.1, h.2.1, h.2.2⟩

/-- The upload received by the `/extract-pdf` handler: its client-supplied
filename and the optional size reported by the framework. -/
structure UploadFile where
  filename : PyStr
  size : Option Nat
deriving DecidableEq

/-- The handler's outcome: an `HTTPException` with its status code and
detail, or the JSON success payload. -/
inductive PdfResponse
  | httpError (status : Nat) (detail : PyStr)
  | jsonOk (total : Nat) (properties : List PropertyEntry)
deriving DecidableEq

/-- The 10 MB upload limit (main.py, line 80). -/
def MAX_UPLOAD_SIZE : Nat := 10 * 1024 * 1024

/-- `if file.size and file.size > 10 * 1024 * 1024` (main.py, line 80):
a missing size is falsy and skips the check, and a reported size of 0 is
also falsy but below the limit anyway. -/
def sizeExceeds : Option Nat → Bool
  | some n => decide (n > MAX_UPLOAD_SIZE)
  | none => false

/-- The `extract_pdf` request handler (main.py, lines 66-126): filename
validation, then size validation, then the extraction call.  The
`extraction` argument abstracts the outcome of running
`extract_pdf_data(temp_file_path)` inside the handler's inner `try`
(`Except.error` models it raising, which the handler maps to a 422). -/
def main_extract_pdf (file : UploadFile)
    (extraction : Except PyStr (List PropertyEntry)) : PdfResponse :=
  if pyEndswith file.filename (".pdf".toList) = false then
    PdfResponse.httpError 400 ("File must be a PDF".toList)
  else if sizeExceeds file.size then
    PdfResponse.httpError 413 ("File too large. Maximum size is 10MB".toList)
  else
    match extraction with
    | Except.error e =>
      PdfResponse.httpError 422 ("Failed to extract data from PDF: ".toList ++ e)
    | Except.ok properties => PdfResponse.jsonOk properties.length properties

/-- Status code of a response, when it is an error response. -/
def responseStatus : PdfResponse → Option Nat
  | PdfResponse.httpError st _ => some st
  | PdfResponse.jsonOk _ _ => none

/-- Claim C9: an upload whose filename does not end in `.pdf`, or whose
reported size exceeds 10 MB, is rejected with a validation status (400 or
413) distinct from the extraction-failure status 422, and the response is
the same whatever the extraction would have produced -- i.e. extraction
never runs for it. -/
theorem upload_validation_rejects (file : UploadFile)
    (extraction extraction2 : Except PyStr (List PropertyEntry))
    (h : pyEndswith file.filename (".pdf".toList) = false ∨
         ∃ n, file.size = some n ∧ n > MAX_UPLOAD_SIZE) :
    (responseStatus (main_extract_pdf file extraction) = some 400 ∨
     responseStatus (main_extract_pdf file extraction) = some 413) ∧
    responseStatus (main_extract_pdf file extraction) ≠ some 422 ∧
    main_extract_pdf file extraction = main_extract_pdf file extraction2 := by
  by_cases hf : pyEndswith file.filename (".pdf".toList) = false
  · unfold main_extract_pdf
    rw [if_pos hf, if_pos hf]
    simp [responseStatus]
  · rcases h with h | ⟨n, hn, hgt⟩
    · exact absurd h hf
    · have hsz : sizeExceeds file.size = true := by
        rw [hn]; simp [sizeExceeds]; omega
      unfold main_extract_pdf
      rw [if_neg hf, if_pos hsz, if_neg hf, if_pos hsz]
      simp [responseStatus]

/-- Witness for C9: a 100-byte `.txt` upload is rejected with status 400
regardless of what extraction would have returned. -/
theorem upload_validation_rejects_witness :
    (responseStatus (main_extract_pdf ⟨"document.txt".toList, some 100⟩
        (Except.ok [])) = some 400 ∨
     responseStatus (main_extract_pdf ⟨"document.txt".toList, some 100⟩
        (Except.ok [])) = some 413) ∧
    responseStatus (main_extract_pdf ⟨"document.txt".toList, some 100⟩
        (Except.ok [])) ≠ some 422 ∧
    main_extract_pdf ⟨"document.txt".toList, some 100⟩ (Except.ok [])
      = main_extract_pdf ⟨"document.txt".toList, some 100⟩
          (Except.error "boom".toList) :=
  upload_validation_rejects ⟨"document.txt".toList, some 100⟩
    (Except.ok []) (Except.error "boom".toList) (Or.inl (by decide))
